import Mathlib

/-!
Verification development for the Booking Orchestration Core:
the conversation state machine (src/agent/stateMachine.ts), the attempt
scheduler (src/attempts/strategy.ts) and the calendar reservation engine
(src/calendar/service.ts), embedded shallowly and checked against the
specification.
-/

set_option maxRecDepth 4000

/-! ## String helpers modelling the JavaScript string operations used
by the source.  Strings in the relevant code paths are ASCII; the
lowercase conversion models String.prototype.toLowerCase on the ASCII
range, and strIncludes models String.prototype.includes. -/

/-- Lowercase a character on the ASCII range (model of JS toLowerCase,
which the source only applies to ASCII text). -/
def charLower (c : Char) : Char :=
  if 'A' ≤ c && c ≤ 'Z' then Char.ofNat (c.toNat + 32) else c

/-- Lowercase every character of a string. -/
def strLower (s : String) : String :=
  ⟨s.data.map charLower⟩

/-- Whether the list sub occurs contiguously inside hay. -/
def listHasInfix (hay sub : List Char) : Bool :=
  match hay with
  | [] => sub.isEmpty
  | _ :: t => sub.isPrefixOf hay || listHasInfix t sub

/-- Model of JS String.prototype.includes. -/
def strIncludes (s sub : String) : Bool :=
  listHasInfix s.data sub.data

/-! ## Conversation state machine (src/agent/stateMachine.ts)

Direct translation of the pure transition function.  Optional TS fields
become Option; TS truthiness of an optional boolean field becomes a Bool
that is false when the field is absent (the source only ever reads these
fields through truthiness checks and only ever writes the value true).
An optional string field read through a truthiness check is modelled by
jsTruthyStr, which is false exactly on the absent and empty string. -/

inductive State where
  | IdentifyContact
  | ConsentGate
  | Qualify
  | ProposeTime
  | Confirm
  | OptOut
  | Transfer
  | Voicemail
  | End
deriving DecidableEq, Repr, BEq

inductive Need where
  | high
  | medium
  | low
deriving DecidableEq, Repr, BEq

inductive Timing where
  | this_quarter
  | next_quarter
  | later
deriving DecidableEq, Repr, BEq

inductive BudgetIndicator where
  | present
  | unknown
  | absent
deriving DecidableEq, Repr, BEq

structure ConversationSlots where
  authority : Option Bool := none
  need : Option Need := none
  timing : Option Timing := none
  budget_indicator : Option BudgetIndicator := none
  confirmed_date : Option String := none
  confirmed_time : Option String := none
  pain_stated : Option Bool := none
deriving DecidableEq, Repr

structure MandatoryLines where
  identification : Bool := false
  purpose : Bool := false
  consent_to_proceed : Bool := false
  recording_consent : Bool := false
deriving DecidableEq, Repr

structure BookingIntent where
  booking_id : String
  lead_id : String
  confirmed_date : String
  confirmed_time : String
  qualification_flags : ConversationSlots
  explicit_confirmation : Bool
deriving DecidableEq, Repr

structure ConversationContext where
  call_id : String
  lead_id : String
  contact_name : Option String := none
  company_name : Option String := none
  recording_required : Bool := false
  jurisdiction : Option String := none
deriving DecidableEq, Repr

inductive Intent where
  | identify
  | consent
  | qualify
  | propose
  | confirm
  | opt_out
  | transfer
  | voicemail
  | disqualify
deriving DecidableEq, Repr, BEq

structure StateMachineInput where
  intent : Option Intent := none
  text : Option String := none
  slots : Option ConversationSlots := none
  explicit_confirmation : Bool := false
  selected_time : Option String := none
deriving DecidableEq, Repr

structure StateMachineState where
  current : State
  slots : ConversationSlots
  mandatory_lines : MandatoryLines
  context : ConversationContext
  booking_intent : Option BookingIntent := none
  history : List State
deriving DecidableEq, Repr

/-- JS truthiness of an optional string (undefined and the empty string
are falsy). -/
def jsTruthyStr : Option String → Bool
  | none => false
  | some s => s ≠ ""

/-- Source initialState. -/
def initialState (context : ConversationContext) : StateMachineState :=
  { current := State.IdentifyContact
    slots := {}
    mandatory_lines := {}
    context := context
    booking_intent := none
    history := [State.IdentifyContact] }

/-- Source checkMandatoryLines. -/
def checkMandatoryLines (state : StateMachineState) (input : StateMachineInput) :
    MandatoryLines :=
  let lines := state.mandatory_lines
  let text := strLower (input.text.getD "")
  let lines :=
    if (state.current = State.IdentifyContact || state.current = State.ConsentGate)
        && (strIncludes text "this is" || strIncludes text "calling from" ||
            (match state.context.contact_name with
             | none => false
             | some n => strIncludes text (strLower n))) then
      { lines with identification := true }
    else lines
  let lines :=
    if (state.current = State.ConsentGate || state.current = State.Qualify)
        && (strIncludes text "schedule" || strIncludes text "meeting" ||
            strIncludes text "discovery") then
      { lines with purpose := true }
    else lines
  let lines :=
    if state.current = State.ConsentGate
        && (input.intent = some Intent.consent || strIncludes text "yes" ||
            strIncludes text "sure" || strIncludes text "ok") then
      { lines with consent_to_proceed := true }
    else lines
  let lines :=
    if state.context.recording_required
        && (state.current = State.ConsentGate || state.current = State.Qualify)
        && (input.intent = some Intent.consent && strIncludes text "record") then
      { lines with recording_consent := true }
    else lines
  lines

/-- Source updateSlots. -/
def updateSlots (currentSlots : ConversationSlots) (input : StateMachineInput) :
    ConversationSlots :=
  let slots := currentSlots
  let slots :=
    match input.slots with
    | none => slots
    | some i =>
      let slots := match i.authority with | none => slots | some v => { slots with authority := some v }
      let slots := match i.need with | none => slots | some v => { slots with need := some v }
      let slots := match i.timing with | none => slots | some v => { slots with timing := some v }
      let slots := match i.budget_indicator with | none => slots | some v => { slots with budget_indicator := some v }
      let slots := match i.confirmed_date with | none => slots | some v => { slots with confirmed_date := some v }
      let slots := match i.confirmed_time with | none => slots | some v => { slots with confirmed_time := some v }
      let slots := match i.pain_stated with | none => slots | some v => { slots with pain_stated := some v }
      slots
  let text := strLower (input.text.getD "")
  let slots :=
    if strIncludes text "decision" || strIncludes text "authority" ||
        strIncludes text "decision maker" then
      { slots with authority := some true }
    else slots
  let slots :=
    if strIncludes text "urgent" || strIncludes text "immediately" ||
        strIncludes text "asap" then
      { slots with timing := some Timing.this_quarter }
    else slots
  let slots :=
    if strIncludes text "next quarter" || strIncludes text "q2" ||
        strIncludes text "q3" || strIncludes text "q4" then
      { slots with timing := some Timing.next_quarter }
    else slots
  slots

/-- Source isQualified. -/
def isQualified (slots : ConversationSlots) : Bool :=
  slots.authority = some true
    && (slots.need = some Need.high
        || (slots.need = some Need.medium && slots.pain_stated = some true))
    && (slots.timing = some Timing.this_quarter || slots.timing = some Timing.next_quarter)
    && (slots.budget_indicator = some BudgetIndicator.present
        || (slots.budget_indicator = some BudgetIndicator.unknown
            && slots.authority = some true && slots.need = some Need.high))

/-- Source nextState: the pure transition function. -/
def nextState (state : StateMachineState) (input : StateMachineInput) :
    StateMachineState :=
  let updatedMandatoryLines := checkMandatoryLines state input
  let updatedSlots := updateSlots state.slots input
  match state.current with
  | State.IdentifyContact =>
    if updatedMandatoryLines.identification && updatedMandatoryLines.purpose then
      { state with
          current := State.ConsentGate
          slots := updatedSlots
          mandatory_lines := updatedMandatoryLines
          history := state.history ++ [State.ConsentGate] }
    else if input.intent = some Intent.transfer then
      { state with
          current := State.Transfer
          slots := updatedSlots
          mandatory_lines := updatedMandatoryLines
          history := state.history ++ [State.Transfer] }
    else if input.intent = some Intent.voicemail then
      { state with
          current := State.Voicemail
          slots := updatedSlots
          mandatory_lines := updatedMandatoryLines
          history := state.history ++ [State.Voicemail] }
    else
      { state with
          slots := updatedSlots
          mandatory_lines := updatedMandatoryLines }
  | State.ConsentGate =>
    if !updatedMandatoryLines.consent_to_proceed then
      { state with
          slots := updatedSlots
          mandatory_lines := updatedMandatoryLines }
    else if state.context.recording_required && !updatedMandatoryLines.recording_consent then
      { state with
          slots := updatedSlots
          mandatory_lines := updatedMandatoryLines }
    else if input.intent = some Intent.opt_out then
      { state with
          current := State.OptOut
          slots := updatedSlots
          mandatory_lines := updatedMandatoryLines
          history := state.history ++ [State.OptOut] }
    else if input.intent = some Intent.transfer then
      { state with
          current := State.Transfer
          slots := updatedSlots
          mandatory_lines := updatedMandatoryLines
          history := state.history ++ [State.Transfer] }
    else
      { state with
          current := State.Qualify
          slots := updatedSlots
          mandatory_lines := updatedMandatoryLines
          history := state.history ++ [State.Qualify] }
  | State.Qualify =>
    if input.intent = some Intent.opt_out then
      { state with
          current := State.OptOut
          slots := updatedSlots
          mandatory_lines := updatedMandatoryLines
          history := state.history ++ [State.OptOut] }
    else if input.intent = some Intent.transfer then
      { state with
          current := State.Transfer
          slots := updatedSlots
          mandatory_lines := updatedMandatoryLines
          history := state.history ++ [State.Transfer] }
    else if input.intent = some Intent.disqualify then
      { state with
          current := State.End
          slots := updatedSlots
          mandatory_lines := updatedMandatoryLines
          history := state.history ++ [State.End] }
    else if isQualified updatedSlots then
      { state with
          current := State.ProposeTime
          slots := updatedSlots
          mandatory_lines := updatedMandatoryLines
          history := state.history ++ [State.ProposeTime] }
    else
      { state with
          slots := updatedSlots
          mandatory_lines := updatedMandatoryLines }
  | State.ProposeTime =>
    if input.intent = some Intent.opt_out then
      { state with
          current := State.OptOut
          slots := updatedSlots
          mandatory_lines := updatedMandatoryLines
          history := state.history ++ [State.OptOut] }
    else if input.intent = some Intent.transfer then
      { state with
          current := State.Transfer
          slots := updatedSlots
          mandatory_lines := updatedMandatoryLines
          history := state.history ++ [State.Transfer] }
    else if input.intent = some Intent.confirm && jsTruthyStr input.selected_time
        && input.explicit_confirmation then
      let confirmedSlots := { updatedSlots with
        confirmed_time := input.selected_time,
        confirmed_date := input.selected_time }
      { state with
          current := State.Confirm
          slots := confirmedSlots
          mandatory_lines := updatedMandatoryLines
          history := state.history ++ [State.Confirm] }
    else
      { state with
          slots := updatedSlots
          mandatory_lines := updatedMandatoryLines }
  | State.Confirm =>
    if input.explicit_confirmation && jsTruthyStr updatedSlots.confirmed_time
        && jsTruthyStr updatedSlots.confirmed_date then
      let intent : BookingIntent :=
        { booking_id := "booking-" ++ state.context.call_id
          lead_id := state.context.lead_id
          confirmed_date := (updatedSlots.confirmed_date).getD ""
          confirmed_time := (updatedSlots.confirmed_time).getD ""
          qualification_flags := updatedSlots
          explicit_confirmation := true }
      { state with
          current := State.End
          slots := updatedSlots
          mandatory_lines := updatedMandatoryLines
          booking_intent := some intent
          history := state.history ++ [State.End] }
    else if input.intent = some Intent.opt_out then
      { state with
          current := State.OptOut
          slots := updatedSlots
          mandatory_lines := updatedMandatoryLines
          history := state.history ++ [State.OptOut] }
    else if input.intent = some Intent.transfer then
      { state with
          current := State.Transfer
          slots := updatedSlots
          mandatory_lines := updatedMandatoryLines
          history := state.history ++ [State.Transfer] }
    else
      { state with
          slots := updatedSlots
          mandatory_lines := updatedMandatoryLines }
  | State.OptOut =>
    { state with
          slots := updatedSlots
          mandatory_lines := updatedMandatoryLines }
  | State.Transfer =>
    { state with
          slots := updatedSlots
          mandatory_lines := updatedMandatoryLines }
  | State.Voicemail =>
    { state with
          slots := updatedSlots
          mandatory_lines := updatedMandatoryLines }
  | State.End =>
    { state with
          slots := updatedSlots
          mandatory_lines := updatedMandatoryLines }

/-! ## Attempt scheduler (src/attempts/strategy.ts)

Timestamps are modelled as Nat milliseconds since the Unix epoch; the
source stores RFC 3339 UTC strings and converts them with new Date(..)
before every use, so the millisecond value is the information the logic
consumes.  The ambient system clock read by new Date() inside
getAttemptsThisWeek is made explicit as a sysNow parameter; the optional
currentTime argument of scheduleAttempt is kept separate, exactly as in
the source. -/

inductive Outcome where
  | answered
  | no_answer
  | busy
  | voicemail
  | failed
  | opt_out
deriving DecidableEq, Repr, BEq

/-- One historical contact attempt.  The attempt_id, lead_id, region and
call_id fields of the source record are not read by any of the embedded
logic and are omitted. -/
structure AttemptRecord where
  attempt_no : Nat
  timestamp : Nat
  outcome : Outcome
deriving DecidableEq, Repr

/-- Milliseconds in a minute, hour, day. -/
def msMinute : Nat := 60000

def msHour : Nat := 3600000

def msDay : Nat := 86400000

/-- Model of Date.prototype.getUTCHours on an epoch-millisecond value. -/
def getUTCHours (t : Nat) : Nat := t / msHour % 24

/-- Model of Date.prototype.getUTCDay (0 = Sunday); the epoch day
1970-01-01 was a Thursday. -/
def getUTCDay (t : Nat) : Nat := (t / msDay + 4) % 7

/-- Midnight UTC of the day containing t. -/
def dayStartMs (t : Nat) : Nat := t - t % msDay

/-- Monday 00:00 UTC of the ISO week containing t: the source computes
setUTCDate(getUTCDate() - ((getUTCDay() + 6) % 7)) followed by
setUTCHours(0, 0, 0, 0). -/
def weekStartMs (t : Nat) : Nat := dayStartMs t - (getUTCDay t + 6) % 7 * msDay

/-- Model of setUTCMinutes(getUTCMinutes() + 1, 0, 0): seconds and
milliseconds are zeroed and one minute is added. -/
def minuteCeilMs (t : Nat) : Nat := t / msMinute * msMinute + msMinute

/-- Model of setUTCHours(h, 0, 0, 0) on the day containing t. -/
def setHourMs (t h : Nat) : Nat := dayStartMs t + h * msHour

/-- A regional daily contact window in UTC hours; endh models the source
field named end, which is a reserved word in Lean. -/
structure TimeWindow where
  start : Nat
  endh : Nat
deriving DecidableEq, Repr

/-- Source getTimeWindow together with the REGION_TIME_WINDOWS table,
including the fallback to DEFAULT for unknown regions. -/
def getTimeWindow (region : String) : TimeWindow :=
  if region = "US_EAST" then ⟨13, 21⟩
  else if region = "US_WEST" then ⟨17, 1⟩
  else if region = "EU" then ⟨8, 16⟩
  else if region = "APAC" then ⟨0, 8⟩
  else ⟨13, 21⟩

/-- Source getAttemptsInWindow. -/
def getAttemptsInWindow (attempts : List AttemptRecord) (windowStart windowEnd : Nat) :
    List AttemptRecord :=
  attempts.filter (fun a => windowStart ≤ a.timestamp && a.timestamp < windowEnd)

/-- Source getAttemptsThisWeek; the week is anchored on the ambient
system clock sysNow, which the source reads with new Date(). -/
def getAttemptsThisWeek (attempts : List AttemptRecord) (sysNow : Nat) :
    List AttemptRecord :=
  getAttemptsInWindow attempts (weekStartMs sysNow) (weekStartMs sysNow + 7 * msDay)

/-- Source getLastAttempt: a stable descending sort by timestamp followed
by taking index 0, i.e. the earliest-indexed record among those with the
maximal timestamp. -/
def getLastAttempt (attempts : List AttemptRecord) : Option AttemptRecord :=
  attempts.foldl
    (fun best a =>
      match best with
      | none => some a
      | some b => if b.timestamp < a.timestamp then some a else some b)
    none

/-- Source has24HourSpacing: at least 24 hours between the last attempt
and now (false when now precedes the attempt, as in the source where the
negative hour difference compares below 24). -/
def has24HourSpacing (lastAttempt : AttemptRecord) (now : Nat) : Bool :=
  lastAttempt.timestamp + 24 * msHour ≤ now

/-- Source getNextAttemptNo. -/
def getNextAttemptNo (attempts : List AttemptRecord) : Nat :=
  if attempts.isEmpty then 1
  else
    (match getLastAttempt attempts with
     | none => 0
     | some la => la.attempt_no) + 1

/-- Source isVoicemailAllowed. -/
def isVoicemailAllowed (attemptNo : Nat) : Bool :=
  attemptNo = 2

/-- Source getNextTimeInWindow. -/
def getNextTimeInWindow (now : Nat) (window : TimeWindow) : Nat :=
  let currentHour := getUTCHours now
  if window.endh < window.start then
    if window.start ≤ currentHour || currentHour < window.endh then
      minuteCeilMs now
    else
      setHourMs now window.start
  else
    if currentHour < window.start then
      setHourMs now window.start
    else if currentHour < window.endh then
      minuteCeilMs now
    else
      setHourMs now window.start + msDay

/-- Source getBusyRetryTime: a retry exactly 15 minutes after a busy
attempt, offered while fewer than 15 minutes have elapsed. -/
def getBusyRetryTime (lastAttempt : AttemptRecord) (now : Nat) : Option Nat :=
  if lastAttempt.outcome ≠ Outcome.busy then none
  else if now < lastAttempt.timestamp + 15 * msMinute then
    some (lastAttempt.timestamp + 15 * msMinute)
  else none

/-- Scheduling decision record; optional fields are absent exactly when
the source leaves them undefined. -/
structure ScheduleResult where
  eligible : Bool
  next_attempt_ts : Option Nat := none
  block_reason : Option String := none
  attempt_no : Option Nat := none
  retry_after_ts : Option Nat := none
deriving DecidableEq, Repr

/-- Source scheduleAttempt.  attempts is the stored history of the lead,
currentTime the optional explicit evaluation time, sysNow the ambient
system clock (the source evaluates new Date() for the weekly count and
as the fallback when currentTime is omitted). -/
def scheduleAttempt (attempts : List AttemptRecord) (region : String)
    (currentTime : Option Nat) (sysNow : Nat) : ScheduleResult :=
  let now := currentTime.getD sysNow
  let attemptsThisWeek := getAttemptsThisWeek attempts sysNow
  let lastAttempt := getLastAttempt attempts
  if 3 ≤ attemptsThisWeek.length then
    let monday := weekStartMs now + 7 * msDay
    let window := getTimeWindow region
    let nextTime := getNextTimeInWindow monday window
    { eligible := false
      block_reason := some "WEEKLY_LIMIT_EXCEEDED"
      next_attempt_ts := some nextTime }
  else
    let busyResult : Option ScheduleResult :=
      match lastAttempt with
      | none => none
      | some la =>
        match getBusyRetryTime la now with
        | none => none
        | some busyRetry =>
          if now < busyRetry then
            some { eligible := true
                   next_attempt_ts := some busyRetry
                   attempt_no := some la.attempt_no
                   retry_after_ts := some busyRetry }
          else none
    match busyResult with
    | some r => r
    | none =>
      let window := getTimeWindow region
      let currentHour := getUTCHours now
      let canCallNow :=
        if window.endh < window.start then
          window.start ≤ currentHour || currentHour < window.endh
        else
          window.start ≤ currentHour && currentHour < window.endh
      let windowResult : ScheduleResult :=
        if canCallNow then
          { eligible := true
            next_attempt_ts := some now
            attempt_no := some (getNextAttemptNo attempts) }
        else
          { eligible := false
            block_reason := some "OUTSIDE_TIME_WINDOW"
            next_attempt_ts := some (getNextTimeInWindow now window)
            attempt_no := some (getNextAttemptNo attempts) }
      match lastAttempt with
      | none => windowResult
      | some la =>
        if !has24HourSpacing la now then
          let isBusyRetry :=
            la.outcome = Outcome.busy && (getBusyRetryTime la now).isSome
          if !isBusyRetry then
            let nextTime := la.timestamp + 24 * msHour
            let windowedTime := getNextTimeInWindow nextTime window
            { eligible := false
              block_reason := some "INSUFFICIENT_SPACING"
              next_attempt_ts := some windowedTime
              attempt_no := some (getNextAttemptNo attempts) }
          else windowResult
        else windowResult

/-- Source isVoicemailAllowedForLead, applied to the stored attempt list
of the lead. -/
def isVoicemailAllowedForLead (attempts : List AttemptRecord) : Bool :=
  isVoicemailAllowed (getNextAttemptNo attempts)

/-! ## Calendar reservation engine (src/calendar/service.ts)

The deterministic external identifier is derived with SHA-256 over the
UTF-8 bytes of the concatenation of the meeting identifier and the start
timestamp; the hash is embedded below in full over Nat with reductions
modulo 2 to the 32.  Timestamps stay RFC 3339 UTC strings as in the
source and are converted to epoch milliseconds by parseRFC3339Ms, the
model of new Date(s).getTime() on this format. -/

/-- Reduce to a 32-bit word. -/
def w32 (x : Nat) : Nat := x % 4294967296

/-- Rotate a 32-bit word right by n. -/
def rotr32 (n x : Nat) : Nat := w32 (x >>> n ||| x <<< (32 - n))

/-- SHA-256 big sigma 0. -/
def bSig0 (x : Nat) : Nat := rotr32 2 x ^^^ rotr32 13 x ^^^ rotr32 22 x

/-- SHA-256 big sigma 1. -/
def bSig1 (x : Nat) : Nat := rotr32 6 x ^^^ rotr32 11 x ^^^ rotr32 25 x

/-- SHA-256 small sigma 0. -/
def sSig0 (x : Nat) : Nat := rotr32 7 x ^^^ rotr32 18 x ^^^ (x >>> 3)

/-- SHA-256 small sigma 1. -/
def sSig1 (x : Nat) : Nat := rotr32 17 x ^^^ rotr32 19 x ^^^ (x >>> 10)

/-- SHA-256 choice function; complement is taken inside 32 bits. -/
def shaCh (x y z : Nat) : Nat := (x &&& y) ^^^ ((x ^^^ 4294967295) &&& z)

/-- SHA-256 majority function. -/
def shaMaj (x y z : Nat) : Nat := (x &&& y) ^^^ (x &&& z) ^^^ (y &&& z)

/-- SHA-256 round constants. -/
def shaK : List Nat :=
  [1116352408, 1899447441, 3049323471, 3921009573, 961987163,
   1508970993, 2453635748, 2870763221, 3624381080, 310598401,
   607225278, 1426881987, 1925078388, 2162078206, 2614888103,
   3248222580, 3835390401, 4022224774, 264347078, 604807628,
   770255983, 1249150122, 1555081692, 1996064986, 2554220882,
   2821834349, 2952996808, 3210313671, 3336571891, 3584528711,
   113926993, 338241895, 666307205, 773529912, 1294757372,
   1396182291, 1695183700, 1986661051, 2177026350, 2456956037,
   2730485921, 2820302411, 3259730800, 3345764771, 3516065817,
   3600352804, 4094571909, 275423344, 430227734, 506948616,
   659060556, 883997877, 958139571, 1322822218, 1537002063,
   1747873779, 1955562222, 2024104815, 2227730452, 2361852424,
   2428436474, 2756734187, 3204031479, 3329325298]

/-- SHA-256 initial hash value. -/
def shaH0 : List Nat :=
  [1779033703, 3144134277, 1013904242, 2773480762, 1359893119,
   2600822924, 528734635, 1541459225]

/-- Big-endian bytes of a 64-bit value. -/
def be64 (n : Nat) : List Nat :=
  [n >>> 56 % 256, n >>> 48 % 256, n >>> 40 % 256, n >>> 32 % 256,
   n >>> 24 % 256, n >>> 16 % 256, n >>> 8 % 256, n % 256]

/-- Big-endian bytes of a 32-bit word. -/
def be32 (n : Nat) : List Nat :=
  [n >>> 24 % 256, n >>> 16 % 256, n >>> 8 % 256, n % 256]

/-- SHA-256 padding: append 0x80, zeros, and the 64-bit bit length. -/
def shaPad (msg : List Nat) : List Nat :=
  let L := msg.length
  let k := (119 - L % 64) % 64
  msg ++ [128] ++ List.replicate k 0 ++ be64 (8 * L)

/-- Split a byte list into 64-byte chunks; the first argument is fuel
bounding the recursion by the list length. -/
def chunks64Aux : Nat → List Nat → List (List Nat)
  | 0, _ => []
  | fuel + 1, l => if l.isEmpty then [] else l.take 64 :: chunks64Aux fuel (l.drop 64)

/-- Split a byte list into 64-byte chunks. -/
def chunks64 (l : List Nat) : List (List Nat) := chunks64Aux l.length l

/-- Combine 4 bytes big-endian into a word; applied to a 64-byte chunk
this yields its 16 message words. -/
def wordsOfChunk : List Nat → List Nat
  | b0 :: b1 :: b2 :: b3 :: rest =>
    (b0 <<< 24 ||| b1 <<< 16 ||| b2 <<< 8 ||| b3) :: wordsOfChunk rest
  | _ => []

/-- Extend 16 message words to the 64-entry message schedule. -/
def shaSchedule (w : List Nat) : List Nat :=
  (List.range 48).foldl
    (fun acc _ =>
      let i := acc.length
      acc ++ [w32 (sSig1 (acc.getD (i - 2) 0) + acc.getD (i - 7) 0 +
                   sSig0 (acc.getD (i - 15) 0) + acc.getD (i - 16) 0)])
    w

/-- One SHA-256 compression step over a 64-byte chunk. -/
def shaCompress (h : List Nat) (chunk : List Nat) : List Nat :=
  let ws := shaSchedule (wordsOfChunk chunk)
  let final :=
    (List.range 64).foldl
      (fun st i =>
        match st with
        | [a, b, c, d, e, f, g, hh] =>
          let t1 := w32 (hh + bSig1 e + shaCh e f g + shaK.getD i 0 + ws.getD i 0)
          let t2 := w32 (bSig0 a + shaMaj a b c)
          [w32 (t1 + t2), a, b, c, w32 (d + t1), e, f, g]
        | other => other)
      h
  (h.zip final).map (fun p => w32 (p.1 + p.2))

/-- SHA-256 of a byte list, as 32 bytes. -/
def sha256 (msg : List Nat) : List Nat :=
  let hFinal := (chunks64 (shaPad msg)).foldl shaCompress shaH0
  hFinal.flatMap be32

/-- Lowercase hex character of a value below 16. -/
def hexChar (n : Nat) : Char :=
  if n < 10 then Char.ofNat (48 + n) else Char.ofNat (87 + n)

/-- Lowercase hex digest string of a byte list. -/
def hexDigest (bytes : List Nat) : String :=
  ⟨bytes.flatMap (fun b => [hexChar (b / 16), hexChar (b % 16)])⟩

/-- UTF-8 bytes of one character. -/
def utf8Char (c : Char) : List Nat :=
  let n := c.toNat
  if n < 128 then [n]
  else if n < 2048 then [192 + n / 64, 128 + n % 64]
  else if n < 65536 then [224 + n / 4096, 128 + n / 64 % 64, 128 + n % 64]
  else [240 + n / 262144, 128 + n / 4096 % 64, 128 + n / 64 % 64, 128 + n % 64]

/-- UTF-8 bytes of a string, the input Buffer of createHash. -/
def utf8Bytes (s : String) : List Nat := s.data.flatMap utf8Char

/-- Source generateICalUid: SHA-256 of the concatenation of booking id
and start timestamp, formatted as a UUID-like string from the first 32
hex characters. -/
def generateICalUid (bookingId : String) (startUtc : String) : String :=
  let hash := (hexDigest (sha256 (utf8Bytes (bookingId ++ startUtc)))).data
  ⟨hash.take 8 ++ '-' :: (hash.drop 8).take 4 ++ '-' :: (hash.drop 12).take 4 ++
    '-' :: (hash.drop 16).take 4 ++ '-' :: (hash.drop 20).take 12⟩

/-- Value of a digit list in base 10. -/
def natOfDigits (cs : List Char) : Nat :=
  cs.foldl (fun a c => a * 10 + (c.toNat - 48)) 0

/-- Days from 0000-03-01 to the given civil date (the standard civil
calendar algorithm); valid for the dates handled here. -/
def daysFromCivil (y m d : Nat) : Nat :=
  let y := if m ≤ 2 then y - 1 else y
  let era := y / 400
  let yoe := y % 400
  let mp := if 2 < m then m - 3 else m + 9
  let doy := (153 * mp + 2) / 5 + (d - 1)
  let doe := yoe * 365 + yoe / 4 - yoe / 100 + doy
  era * 146097 + doe

/-- Model of new Date(s).getTime() on RFC 3339 UTC strings of the shapes
YYYY-MM-DDTHH:mm:ssZ and YYYY-MM-DDTHH:mm:ss.sssZ, for dates on or after
the epoch; 719468 is daysFromCivil at 1970-01-01. -/
def parseRFC3339Ms (s : String) : Nat :=
  let cs := s.data
  let y := natOfDigits (cs.take 4)
  let mo := natOfDigits ((cs.drop 5).take 2)
  let d := natOfDigits ((cs.drop 8).take 2)
  let h := natOfDigits ((cs.drop 11).take 2)
  let mi := natOfDigits ((cs.drop 14).take 2)
  let se := natOfDigits ((cs.drop 17).take 2)
  let msv := if cs.length = 24 then natOfDigits ((cs.drop 20).take 3) else 0
  (daysFromCivil y mo d - 719468) * msDay + h * msHour + mi * msMinute + se * 1000 + msv

/-- The RFC 3339 UTC regex of the contracts module. -/
def rfc3339Ok (s : String) : Bool :=
  let cs := s.data
  let dig := fun (i : Nat) => (cs.getD i ' ').isDigit
  (cs.length = 20 || cs.length = 24)
    && dig 0 && dig 1 && dig 2 && dig 3 && cs.getD 4 ' ' = '-'
    && dig 5 && dig 6 && cs.getD 7 ' ' = '-' && dig 8 && dig 9
    && cs.getD 10 ' ' = 'T' && dig 11 && dig 12 && cs.getD 13 ' ' = ':'
    && dig 14 && dig 15 && cs.getD 16 ' ' = ':' && dig 17 && dig 18
    && (if cs.length = 20 then cs.getD 19 ' ' = 'Z'
        else cs.getD 19 ' ' = '.' && dig 20 && dig 21 && dig 22 && cs.getD 23 ' ' = 'Z')

/-- Hex character test, both cases. -/
def isHexChar (c : Char) : Bool :=
  c.isDigit || ('a' ≤ c && c ≤ 'f') || ('A' ≤ c && c ≤ 'F')

/-- Model of the zod uuid string check: hex groups 8-4-4-4-12 joined by
dashes, case-insensitive. -/
def uuidOk (s : String) : Bool :=
  let cs := s.data
  cs.length = 36
    && (cs.take 8).all isHexChar && cs.getD 8 ' ' = '-'
    && ((cs.drop 9).take 4).all isHexChar && cs.getD 13 ' ' = '-'
    && ((cs.drop 14).take 4).all isHexChar && cs.getD 18 ' ' = '-'
    && ((cs.drop 19).take 4).all isHexChar && cs.getD 23 ' ' = '-'
    && ((cs.drop 24).take 12).all isHexChar

/-- The Salesforce id regex of the contracts module: 15 or 18
alphanumeric characters. -/
def salesforceIdOk (s : String) : Bool :=
  (s.data.length = 15 || s.data.length = 18) && s.data.all Char.isAlphanum

/-- Simplified model of the zod email check: one at-sign with nonempty
local part and a domain containing a dot.  No embedded theorem depends
on its exact boundary; the verified calls keep email fields empty. -/
def emailOk (s : String) : Bool :=
  let cs := s.data
  (cs.filter (· = '@')).length = 1
    && (cs.takeWhile (· ≠ '@')).length ≥ 1
    && ((cs.dropWhile (· ≠ '@')).drop 1).length ≥ 3
    && ((cs.dropWhile (· ≠ '@')).drop 1).any (· = '.')

/-- Model of the HTTPS url check of the contracts module. -/
def httpsUrlOk (s : String) : Bool :=
  strIncludes s "https://" && "https://".data.isPrefixOf s.data && s.data.length > 8

/-- A tentative calendar hold. -/
structure CalendarHold where
  tentative_id : String
  manager_id : String
  start_utc : String
  end_utc : String
  created_by : String
  ttl_seconds : Nat
deriving DecidableEq, Repr

/-- A confirmed calendar event. -/
structure CalendarEvent where
  meeting_id : String
  manager_id : String
  contact_email : Option String := none
  title : String
  start_utc : String
  end_utc : String
  location : Option String := none
  meeting_url : Option String := none
  timezone : String
  description : Option String := none
  invitees_emails : List String := []
  source_system : String
  iCal_uid : Option String := none
deriving DecidableEq, Repr

/-- Model of CalendarHoldSchema.safeParse success. -/
def CalendarHoldSchemaOk (h : CalendarHold) : Bool :=
  uuidOk h.tentative_id && salesforceIdOk h.manager_id
    && rfc3339Ok h.start_utc && rfc3339Ok h.end_utc
    && h.created_by = "system"
    && 300 ≤ h.ttl_seconds && h.ttl_seconds ≤ 1800

/-- Model of CalendarEventSchema.safeParse success. -/
def CalendarEventSchemaOk (e : CalendarEvent) : Bool :=
  uuidOk e.meeting_id && salesforceIdOk e.manager_id
    && (match e.contact_email with | none => true | some x => emailOk x)
    && e.title.data.length ≤ 200
    && rfc3339Ok e.start_utc && rfc3339Ok e.end_utc
    && (match e.meeting_url with | none => true | some u => httpsUrlOk u)
    && 1 ≤ e.timezone.data.length
    && e.invitees_emails.all emailOk
    && e.source_system = "ai-outbound"
    && (match e.iCal_uid with | none => false | some u => uuidOk u)

/-- Calendar branch of the pre-write gate: the idempotency-key presence
check, the schema, and the timestamp re-validation. -/
def preWriteGateCalendarValid (e : CalendarEvent) : Bool :=
  jsTruthyStr e.iCal_uid && CalendarEventSchemaOk e
    && rfc3339Ok e.start_utc && rfc3339Ok e.end_utc

/-- A stored hold with its expiry instant (Date.now() + ttl * 1000). -/
structure HoldCacheEntry where
  hold : CalendarHold
  expires_at : Nat
deriving DecidableEq, Repr

/-- The in-memory calendar stores; the per-manager indexes of the source
are recovered by filtering on manager_id. -/
structure CalendarStore where
  events : List CalendarEvent := []
  holds : List HoldCacheEntry := []
deriving DecidableEq, Repr

/-- The empty calendar store. -/
def emptyCalendarStore : CalendarStore := {}

/-- Source cleanupExpiredHolds at time now: holds whose expiry has been
reached are dropped. -/
def cleanupExpiredHolds (store : CalendarStore) (now : Nat) : CalendarStore :=
  { store with holds := store.holds.filter (fun en => now < en.expires_at) }

/-- Buffer in milliseconds (10 minutes). -/
def BUFFER_MS : Nat := 600000

/-- Source hasOverlap: whether the buffered candidate interval intersects
any event or unexpired hold of the manager, optionally excluding one
tentative id.  The expired holds discarded by the cleanup call inside
the source function are discarded here by filtering on expiry. -/
def hasOverlap (store : CalendarStore) (now : Nat) (managerId startUtc endUtc : String)
    (excludeTentativeId : Option String) : Bool :=
  let start : Int := parseRFC3339Ms startUtc
  let endv : Int := parseRFC3339Ms endUtc
  let startWithBuffer := start - (BUFFER_MS : Int)
  let endWithBuffer := endv + (BUFFER_MS : Int)
  let eventHit :=
    (store.events.filter (fun ev => ev.manager_id = managerId)).any fun ev =>
      let eventStart : Int := parseRFC3339Ms ev.start_utc
      let eventEnd : Int := parseRFC3339Ms ev.end_utc
      (startWithBuffer < eventEnd && endWithBuffer > eventStart)
        || (eventStart < endWithBuffer && eventEnd > startWithBuffer)
  let liveHolds :=
    ((cleanupExpiredHolds store now).holds.filter
      (fun en => en.hold.manager_id = managerId))
  let holdHit := liveHolds.any fun en =>
    !(match excludeTentativeId with
      | some ex => en.hold.tentative_id = ex
      | none => false)
    && (let holdStart : Int := parseRFC3339Ms en.hold.start_utc
        let holdEnd : Int := parseRFC3339Ms en.hold.end_utc
        (startWithBuffer < holdEnd && endWithBuffer > holdStart)
          || (holdStart < endWithBuffer && holdEnd > startWithBuffer))
  eventHit || holdHit

/-- Result record of placeHold. -/
structure PlaceHoldResult where
  success : Bool
  tentative_id : Option String := none
  error : Option String := none
deriving DecidableEq, Repr

/-- Source placeHold.  now models Date.now() and freshId the uuidv4()
value used for the new hold. -/
def placeHold (store : CalendarStore) (now : Nat) (freshId : String)
    (manager_id start_utc end_utc : String) (ttl_seconds : Nat) :
    PlaceHoldResult × CalendarStore :=
  if ttl_seconds < 300 || 1800 < ttl_seconds then
    ({ success := false, error := some "ttl_seconds must be between 300 and 1800" }, store)
  else
    let store := cleanupExpiredHolds store now
    if hasOverlap store now manager_id start_utc end_utc none then
      ({ success := false
         error := some "Time slot overlaps with existing event or hold (including 10-minute buffers)" },
       store)
    else
      let hold : CalendarHold :=
        { tentative_id := freshId
          manager_id := manager_id
          start_utc := start_utc
          end_utc := end_utc
          created_by := "system"
          ttl_seconds := ttl_seconds }
      if !CalendarHoldSchemaOk hold then
        ({ success := false, error := some "Validation failed" }, store)
      else
        let entry : HoldCacheEntry := { hold := hold, expires_at := now + ttl_seconds * 1000 }
        ({ success := true, tentative_id := some freshId },
         { store with holds := store.holds ++ [entry] })

/-- Result record of createEvent. -/
structure CreateEventResult where
  success : Bool
  meeting_url : Option String := none
  iCal_uid : Option String := none
  error : Option String := none
deriving DecidableEq, Repr

/-- Source createEvent: derive the deterministic iCal uid when absent,
validate through the pre-write gate, reject buffered overlaps excluding
the matching hold, store the event and drop that hold. -/
def createEvent (store : CalendarStore) (now : Nat) (event : CalendarEvent) :
    CreateEventResult × CalendarStore :=
  let event :=
    if !jsTruthyStr event.iCal_uid then
      { event with iCal_uid := some (generateICalUid event.meeting_id event.start_utc) }
    else event
  if !preWriteGateCalendarValid event then
    ({ success := false, error := some "Validation failed" }, store)
  else
    let store := cleanupExpiredHolds store now
    let holds := store.holds.filter (fun en => en.hold.manager_id = event.manager_id)
    let matchingHold := holds.find? fun en =>
      ((parseRFC3339Ms en.hold.start_utc : Int) - (parseRFC3339Ms event.start_utc : Int)).natAbs < 1000
    if hasOverlap store now event.manager_id event.start_utc event.end_utc
        (matchingHold.map (fun en => en.hold.tentative_id)) then
      ({ success := false
         error := some "Time slot overlaps with existing event or hold (including 10-minute buffers)" },
       store)
    else if !CalendarEventSchemaOk event then
      ({ success := false, error := some "Schema validation failed" }, store)
    else
      let store :=
        { events := store.events ++ [event]
          holds :=
            match matchingHold with
            | none => store.holds
            | some mh => store.holds.filter
                (fun en => en.hold.tentative_id ≠ mh.hold.tentative_id) }
      ({ success := true
         meeting_url := some ("https://meet.example.com/" ++ event.meeting_id)
         iCal_uid := event.iCal_uid },
       store)

/-! ## Shared concrete fixtures for witnesses and counterexamples,
mirroring the repository test data. -/

/-- The conversation context used by the repository test suite. -/
def sampleCtx : ConversationContext :=
  { call_id := "550e8400-e29b-41d4-a716-446655440000"
    lead_id := "00Q1234567890ABC"
    contact_name := some "John Doe"
    company_name := some "Acme Corp"
    recording_required := false }

/-- The opening utterance of the happy-path test: it carries both the
identification and the purpose keywords. -/
def happyOpener : StateMachineInput :=
  { intent := some Intent.identify
    text := some "Hello, this is John Doe from Acme Corp. I am calling to schedule a discovery meeting." }

/-- A state sitting in Qualify with the given slots. -/
def qualifyStateWith (sl : ConversationSlots) : StateMachineState :=
  { current := State.Qualify
    slots := sl
    mandatory_lines := { identification := true, purpose := true, consent_to_proceed := true }
    context := sampleCtx
    booking_intent := none
    history := [State.IdentifyContact, State.ConsentGate, State.Qualify] }

/-- The boundary slot assignment of the specification: medium need with
pain not stated. -/
def boundarySlots : ConversationSlots :=
  { authority := some true
    need := some Need.medium
    pain_stated := some false
    timing := some Timing.this_quarter
    budget_indicator := some BudgetIndicator.present }

/-- C9: in Qualify, the boundary slots with pain_stated false do not
trigger the move to ProposeTime, the same slots with pain_stated true
do, and in general (absent an opt_out, transfer or disqualify intent)
the Qualify to ProposeTime transition fires exactly when isQualified
holds on the updated slots. -/
theorem qualify_gate_exactly_isQualified :
    (nextState (qualifyStateWith boundarySlots) {}).current = State.Qualify ∧
    (nextState (qualifyStateWith { boundarySlots with pain_stated := some true }) {}).current
      = State.ProposeTime ∧
    (∀ (s : StateMachineState) (i : StateMachineInput),
      s.current = State.Qualify →
      i.intent ≠ some Intent.opt_out →
      i.intent ≠ some Intent.transfer →
      i.intent ≠ some Intent.disqualify →
      ((nextState s i).current = State.ProposeTime ↔
        isQualified (updateSlots s.slots i) = true)) := by
  refine ⟨by decide, by decide, ?_⟩
  intro s i hcur ho ht hd
  unfold nextState
  rw [hcur]
  simp only [ho, ht, hd, if_false]
  by_cases hq : isQualified (updateSlots s.slots i) = true
  · simp [hq]
  · simp [hq]

/-- C9 witness: the general clause applied to the boundary state and the
empty input. -/
theorem qualify_gate_exactly_isQualified_witness :
    (nextState (qualifyStateWith { boundarySlots with pain_stated := some true }) {}).current
        = State.ProposeTime ↔
      isQualified (updateSlots (qualifyStateWith { boundarySlots with pain_stated := some true }).slots {}) = true :=
  qualify_gate_exactly_isQualified.2.2
    (qualifyStateWith { boundarySlots with pain_stated := some true }) {}
    rfl (by decide) (by decide) (by decide)

/-- In Confirm, an input without explicit confirmation and without an
opt-out or transfer intent leaves the current state and the booking
intent unchanged. -/
theorem nextState_confirm_stay (s : StateMachineState) (i : StateMachineInput)
    (hcur : s.current = State.Confirm) (hec : i.explicit_confirmation = false)
    (ho : i.intent ≠ some Intent.opt_out) (ht : i.intent ≠ some Intent.transfer) :
    (nextState s i).current = State.Confirm ∧
      (nextState s i).booking_intent = s.booking_intent := by
  unfold nextState
  rw [hcur]
  simp [hec, ho, ht]

/-- Any booking intent present after a transition either was present
before it or carries explicit_confirmation true. -/
theorem nextState_booking_explicit (s : StateMachineState) (i : StateMachineInput)
    (b : BookingIntent) (hb : (nextState s i).booking_intent = some b) :
    s.booking_intent = some b ∨ b.explicit_confirmation = true := by
  unfold nextState at hb
  cases hcur : s.current <;> rw [hcur] at hb <;>
    simp only [] at hb <;>
    (try (left; exact hb)) <;>
    split at hb <;>
    (try (left; exact hb)) <;>
    (try (split at hb <;> (try (left; exact hb)) <;> (try (split at hb <;> (try (left; exact hb)) <;> (try (split at hb <;> (left; exact hb)))))))
  · right
    have : b.explicit_confirmation = (true : Bool) := by
      have := congrArg (fun o => match o with | some x => x.explicit_confirmation | none => false) hb
      simpa using this.symm
    exact this

/-- C1: in Confirm, any number of inputs without explicit confirmation
and without opt-out or transfer intents leaves the machine in Confirm
with no booking intent; and every booking intent the transition function
produces carries explicit_confirmation true. -/
theorem no_booking_without_explicit_confirmation :
    (∀ (s : StateMachineState) (inputs : List StateMachineInput),
      s.current = State.Confirm → s.booking_intent = none →
      (∀ i ∈ inputs, i.explicit_confirmation = false ∧
        i.intent ≠ some Intent.opt_out ∧ i.intent ≠ some Intent.transfer) →
      (inputs.foldl nextState s).current = State.Confirm ∧
        (inputs.foldl nextState s).booking_intent = none) ∧
    (∀ (s : StateMachineState) (i : StateMachineInput) (b : BookingIntent),
      (nextState s i).booking_intent = some b →
      s.booking_intent = some b ∨ b.explicit_confirmation = true) := by
  constructor
  · intro s inputs
    induction inputs generalizing s with
    | nil => intro hcur hb _; exact ⟨hcur, hb⟩
    | cons i rest ih =>
      intro hcur hb hall
      have hi := hall i (List.mem_cons_self i rest)
      have step := nextState_confirm_stay s i hcur hi.1 hi.2.1 hi.2.2
      have hb' : (nextState s i).booking_intent = none := step.2.trans hb
      exact ih (nextState s i) step.1 hb'
        (fun j hj => hall j (List.mem_cons_of_mem i hj))
  · exact nextState_booking_explicit

/-- A state sitting in Confirm with a confirmed slot pair and no
booking intent. -/
def confirmFixture : StateMachineState :=
  { current := State.Confirm
    slots := { boundarySlots with
               confirmed_date := some "2024-03-15T19:00:00.000Z"
               confirmed_time := some "2024-03-15T19:00:00.000Z" }
    mandatory_lines := { identification := true, purpose := true, consent_to_proceed := true }
    context := sampleCtx
    booking_intent := none
    history := [State.IdentifyContact, State.ConsentGate, State.Qualify,
                State.ProposeTime, State.Confirm] }

/-- The ambiguous retry inputs of the repository test. -/
def ambiguousTurns : List StateMachineInput :=
  [{ text := some "That sounds good" }, { text := some "maybe" }]

/-- C1 witness: two ambiguous turns in Confirm leave the state in
Confirm with no booking intent. -/
theorem no_booking_without_explicit_confirmation_witness :
    (ambiguousTurns.foldl nextState confirmFixture).current = State.Confirm ∧
      (ambiguousTurns.foldl nextState confirmFixture).booking_intent = none :=
  no_booking_without_explicit_confirmation.1 confirmFixture ambiguousTurns rfl rfl
    (by decide)

/-- In IdentifyContact, checkMandatoryLines never changes the purpose
line: the purpose heuristic only runs in ConsentGate and Qualify. -/
theorem checkMandatoryLines_identify_purpose (s : StateMachineState)
    (i : StateMachineInput) (hcur : s.current = State.IdentifyContact) :
    (checkMandatoryLines s i).purpose = s.mandatory_lines.purpose := by
  unfold checkMandatoryLines
  rw [hcur]
  simp
  split <;> rfl

/-- Invariant of every state reachable from the initial state: the
machine sits in IdentifyContact with the purpose line unsatisfied, or in
one of the two terminal exits reachable from it. -/
def ReachInv (s : StateMachineState) : Prop :=
  (s.current = State.IdentifyContact ∧ s.mandatory_lines.purpose = false) ∨
    s.current = State.Transfer ∨ s.current = State.Voicemail

/-- The invariant is preserved by every transition. -/
theorem reachInv_step (s : StateMachineState) (i : StateMachineInput)
    (h : ReachInv s) : ReachInv (nextState s i) := by
  rcases h with ⟨hcur, hp⟩ | hcur | hcur
  · have hfalse : (checkMandatoryLines s i).purpose = false :=
      (checkMandatoryLines_identify_purpose s i hcur).trans hp
    unfold nextState
    rw [hcur]
    simp only [hfalse, Bool.and_false, Bool.false_eq_true, if_false]
    split
    · exact Or.inr (Or.inl rfl)
    · split
      · exact Or.inr (Or.inr rfl)
      · exact Or.inl ⟨rfl, hfalse⟩
  · exact Or.inr (Or.inl (by unfold nextState; rw [hcur]))
  · exact Or.inr (Or.inr (by unfold nextState; rw [hcur]))

/-- The invariant is preserved by any input sequence. -/
theorem reachInv_foldl (inputs : List StateMachineInput) (s : StateMachineState)
    (h : ReachInv s) : ReachInv (inputs.foldl nextState s) := by
  induction inputs generalizing s with
  | nil => exact h
  | cons i rest ih => exact ih (nextState s i) (reachInv_step s i h)

/-- C2: from the initial state no input sequence can reach ConsentGate
(the machine only ever sits in IdentifyContact, Transfer or Voicemail),
and in particular the happy-path opener of the repository test suite,
which the tests expect to move the machine to ConsentGate, leaves it in
IdentifyContact with the purpose line still unsatisfied. -/
theorem consent_gate_unreachable :
    (∀ (ctx : ConversationContext) (inputs : List StateMachineInput),
      (inputs.foldl nextState (initialState ctx)).current = State.IdentifyContact ∨
      (inputs.foldl nextState (initialState ctx)).current = State.Transfer ∨
      (inputs.foldl nextState (initialState ctx)).current = State.Voicemail) ∧
    (nextState (initialState sampleCtx) happyOpener).current = State.IdentifyContact ∧
    (nextState (initialState sampleCtx) happyOpener).mandatory_lines.purpose = false := by
  refine ⟨?_, by decide, by decide⟩
  intro ctx inputs
  have h := reachInv_foldl inputs (initialState ctx) (Or.inl ⟨rfl, rfl⟩)
  rcases h with ⟨h1, _⟩ | h | h
  · exact Or.inl h1
  · exact Or.inr (Or.inl h)
  · exact Or.inr (Or.inr h)

/-- An opt-out input, as in the repository opt-out tests. -/
def optOutTurn : StateMachineInput :=
  { intent := some Intent.opt_out, text := some "Please remove me from your list." }

/-- C4 counterexample: an opt_out intent in IdentifyContact does not
move the machine to OptOut (the IdentifyContact case handles only
transfer and voicemail intents); the state stays IdentifyContact. -/
theorem opt_out_ignored_at_identify_counterexample :
    (nextState (initialState sampleCtx) optOutTurn).current = State.IdentifyContact ∧
      ((nextState (initialState sampleCtx) optOutTurn).current == State.OptOut) = false := by
  decide

/-- C4 amended: opt_out and transfer intents short-circuit from Qualify
and ProposeTime, and from Confirm whenever no booking is generated (the
explicit-confirmation-with-confirmed-slots condition fails); at
ConsentGate they short-circuit only once consent to proceed (and, when
required, recording consent) is satisfied, and otherwise the machine
stays at ConsentGate, both when consent to proceed is missing and when
required recording consent is missing; at IdentifyContact only transfer
and voicemail intents exit (when the forward transition does not fire),
an opt_out intent never reaches OptOut there, and a voicemail intent is
ignored in every non-terminal state other than IdentifyContact. -/
theorem terminal_exit_rules :
    (∀ (s : StateMachineState) (i : StateMachineInput), s.current = State.Qualify →
      i.intent = some Intent.opt_out → (nextState s i).current = State.OptOut) ∧
    (∀ (s : StateMachineState) (i : StateMachineInput), s.current = State.Qualify →
      i.intent = some Intent.transfer → (nextState s i).current = State.Transfer) ∧
    (∀ (s : StateMachineState) (i : StateMachineInput), s.current = State.ProposeTime →
      i.intent = some Intent.opt_out → (nextState s i).current = State.OptOut) ∧
    (∀ (s : StateMachineState) (i : StateMachineInput), s.current = State.ProposeTime →
      i.intent = some Intent.transfer → (nextState s i).current = State.Transfer) ∧
    (∀ (s : StateMachineState) (i : StateMachineInput), s.current = State.Confirm →
      (i.explicit_confirmation && jsTruthyStr (updateSlots s.slots i).confirmed_time
        && jsTruthyStr (updateSlots s.slots i).confirmed_date) = false →
      i.intent = some Intent.opt_out → (nextState s i).current = State.OptOut) ∧
    (∀ (s : StateMachineState) (i : StateMachineInput), s.current = State.Confirm →
      (i.explicit_confirmation && jsTruthyStr (updateSlots s.slots i).confirmed_time
        && jsTruthyStr (updateSlots s.slots i).confirmed_date) = false →
      i.intent = some Intent.transfer → (nextState s i).current = State.Transfer) ∧
    (∀ (s : StateMachineState) (i : StateMachineInput), s.current = State.ConsentGate →
      (checkMandatoryLines s i).consent_to_proceed = true →
      (s.context.recording_required = true → (checkMandatoryLines s i).recording_consent = true) →
      i.intent = some Intent.opt_out → (nextState s i).current = State.OptOut) ∧
    (∀ (s : StateMachineState) (i : StateMachineInput), s.current = State.ConsentGate →
      (checkMandatoryLines s i).consent_to_proceed = true →
      (s.context.recording_required = true → (checkMandatoryLines s i).recording_consent = true) →
      i.intent = some Intent.transfer → (nextState s i).current = State.Transfer) ∧
    (∀ (s : StateMachineState) (i : StateMachineInput), s.current = State.ConsentGate →
      (checkMandatoryLines s i).consent_to_proceed = false →
      (nextState s i).current = State.ConsentGate) ∧
    (∀ (s : StateMachineState) (i : StateMachineInput), s.current = State.ConsentGate →
      (checkMandatoryLines s i).consent_to_proceed = true →
      s.context.recording_required = true →
      (checkMandatoryLines s i).recording_consent = false →
      (nextState s i).current = State.ConsentGate) ∧
    (∀ (s : StateMachineState) (i : StateMachineInput), s.current = State.IdentifyContact →
      ((checkMandatoryLines s i).identification && (checkMandatoryLines s i).purpose) = false →
      i.intent = some Intent.transfer → (nextState s i).current = State.Transfer) ∧
    (∀ (s : StateMachineState) (i : StateMachineInput), s.current = State.IdentifyContact →
      ((checkMandatoryLines s i).identification && (checkMandatoryLines s i).purpose) = false →
      i.intent = some Intent.voicemail → (nextState s i).current = State.Voicemail) ∧
    (∀ (s : StateMachineState) (i : StateMachineInput), s.current = State.IdentifyContact →
      i.intent = some Intent.opt_out →
      ((nextState s i).current == State.OptOut) = false) ∧
    (∀ (s : StateMachineState) (i : StateMachineInput),
      (s.current = State.ConsentGate ∨ s.current = State.Qualify ∨
        s.current = State.ProposeTime ∨ s.current = State.Confirm) →
      i.intent = some Intent.voicemail →
      ((nextState s i).current == State.Voicemail) = false) := by
  refine ⟨?_, ?_, ?_, ?_, ?_, ?_, ?_, ?_, ?_, ?_, ?_, ?_, ?_, ?_⟩
  · intro s i hcur hi; unfold nextState; rw [hcur]; simp [hi]
  · intro s i hcur hi; unfold nextState; rw [hcur]; simp [hi]
  · intro s i hcur hi; unfold nextState; rw [hcur]; simp [hi]
  · intro s i hcur hi; unfold nextState; rw [hcur]; simp [hi]
  · intro s i hcur hbook hi
    unfold nextState; rw [hcur]
    simp only [hbook, Bool.false_eq_true, if_false]
    simp [hi]
  · intro s i hcur hbook hi
    unfold nextState; rw [hcur]
    simp only [hbook, Bool.false_eq_true, if_false]
    simp [hi]
  · intro s i hcur hc hr hi
    unfold nextState; rw [hcur]
    by_cases hrr : s.context.recording_required = true
    · simp [hc, hr hrr, hrr, hi]
    · simp at hrr
      simp [hc, hrr, hi]
  · intro s i hcur hc hr hi
    unfold nextState; rw [hcur]
    by_cases hrr : s.context.recording_required = true
    · simp [hc, hr hrr, hrr, hi]
    · simp at hrr
      simp [hc, hrr, hi]
  · intro s i hcur hc; unfold nextState; rw [hcur]; simp [hc]
  · intro s i hcur hc hrr hrc; unfold nextState; rw [hcur]; simp [hc, hrr, hrc]
  · intro s i hcur hml hi; unfold nextState; rw [hcur]; simp [hml, hi]
  · intro s i hcur hml hi; unfold nextState; rw [hcur]; simp [hml, hi]
  · intro s i hcur hi
    unfold nextState; rw [hcur]; simp [hi]
    (try split) <;> rfl
  · intro s i hcur hi
    rcases hcur with hcur | hcur | hcur | hcur <;>
      (unfold nextState; rw [hcur]; simp [hi]) <;>
      (try split) <;> (try split) <;> rfl

/-- C4 witness: an opt-out intent at Qualify reaches OptOut. -/
theorem terminal_exit_rules_witness :
    (nextState (qualifyStateWith boundarySlots) optOutTurn).current = State.OptOut :=
  terminal_exit_rules.1 (qualifyStateWith boundarySlots) optOutTurn rfl rfl

/-- Three attempts recorded on the Monday, Tuesday and Wednesday of the
ISO week of 2024-03-11, as in the weekly-limit test. -/
def weeklyCapAttempts : List AttemptRecord :=
  [{ attempt_no := 1, timestamp := 1710165600000, outcome := Outcome.no_answer },
   { attempt_no := 2, timestamp := 1710252000000, outcome := Outcome.no_answer },
   { attempt_no := 3, timestamp := 1710338400000, outcome := Outcome.no_answer }]

/-- C5: getAttemptsThisWeek anchors the week on the system clock, not
on the passed currentTime.  With three attempts in the ISO week of the
evaluation time 2024-03-15T14:00Z, a system clock in a different week
(2026-10-09T14:00Z) makes the call eligible instead of blocking with
WEEKLY_LIMIT_EXCEEDED; with the system clock agreeing with currentTime
the weekly block fires with next_attempt_ts on the following Monday at
the window start (2024-03-18T13:00Z). -/
theorem weekly_cap_uses_system_clock_bug :
    scheduleAttempt weeklyCapAttempts "US_EAST" (some 1710511200000) 1791554400000 =
      { eligible := true, next_attempt_ts := some 1710511200000, attempt_no := some 4 } ∧
    scheduleAttempt weeklyCapAttempts "US_EAST" (some 1710511200000) 1710511200000 =
      { eligible := false, block_reason := some "WEEKLY_LIMIT_EXCEEDED",
        next_attempt_ts := some 1710766800000 } := by
  decide

/-- The busy retry is absent when the last outcome is not busy or at
least 15 minutes have elapsed. -/
theorem getBusyRetryTime_none (la : AttemptRecord) (now : Nat)
    (h : la.outcome ≠ Outcome.busy ∨ la.timestamp + 15 * msMinute ≤ now) :
    getBusyRetryTime la now = none := by
  unfold getBusyRetryTime
  rcases h with h | h
  · simp [h]
  · have : ¬ now < la.timestamp + 15 * msMinute := by omega
    simp [this]

/-- C6: when the weekly cap does not apply, the most recent attempt is
busy at T, and less than 15 minutes have elapsed, scheduleAttempt is
eligible with the same attempt number and retry_after_ts exactly
T plus 15 minutes, bypassing the 24-hour spacing rule. -/
theorem busy_short_retry (attempts : List AttemptRecord) (region : String)
    (now sysNow : Nat) (la : AttemptRecord)
    (hweek : (getAttemptsThisWeek attempts sysNow).length < 3)
    (hlast : getLastAttempt attempts = some la)
    (hbusy : la.outcome = Outcome.busy)
    (hlt : now < la.timestamp + 15 * msMinute) :
    scheduleAttempt attempts region (some now) sysNow =
      { eligible := true
        next_attempt_ts := some (la.timestamp + 15 * msMinute)
        attempt_no := some la.attempt_no
        retry_after_ts := some (la.timestamp + 15 * msMinute) } := by
  have hsome : getBusyRetryTime la now = some (la.timestamp + 15 * msMinute) := by
    unfold getBusyRetryTime
    simp [hbusy, hlt]
  unfold scheduleAttempt
  rw [if_neg (by omega)]
  simp only [Option.getD_some, hlast, hsome]
  simp [hlt]

/-- A busy attempt at 2024-03-15T14:00Z. -/
def busyAttempt : AttemptRecord :=
  { attempt_no := 1, timestamp := 1710511200000, outcome := Outcome.busy }

/-- C6 witness: scheduling 5 minutes after the busy attempt yields the
retry at 14:15 with the same attempt number. -/
theorem busy_short_retry_witness :
    scheduleAttempt [busyAttempt] "US_EAST" (some 1710511500000) 1710511500000 =
      { eligible := true, next_attempt_ts := some 1710512100000,
        attempt_no := some 1, retry_after_ts := some 1710512100000 } :=
  busy_short_retry [busyAttempt] "US_EAST" 1710511500000 1710511500000 busyAttempt
    (by decide) (by decide) rfl (by decide)

/-- A no-answer attempt at 2024-03-14T14:30:30Z. -/
def spacedAttempt : AttemptRecord :=
  { attempt_no := 1, timestamp := 1710426630000, outcome := Outcome.no_answer }

/-- C7 counterexample: with the last attempt at 2024-03-14T14:30:30Z
and evaluation at 2024-03-15T10:00Z, the block is INSUFFICIENT_SPACING
but next_attempt_ts is 2024-03-15T14:31:00Z, not exactly 24 hours after
the last attempt (2024-03-15T14:30:30Z), although that instant lies
inside the regional window. -/
theorem insufficient_spacing_not_exact_counterexample :
    scheduleAttempt [spacedAttempt] "US_EAST" (some 1710496800000) 1710496800000 =
      { eligible := false, block_reason := some "INSUFFICIENT_SPACING",
        next_attempt_ts := some 1710513060000, attempt_no := some 2 } ∧
    (some 1710513060000 == some (1710426630000 + 24 * msHour)) = false := by
  decide

/-- C7 amended: when the weekly cap and the busy retry do not apply and
the last attempt is less than 24 hours old, scheduleAttempt blocks with
INSUFFICIENT_SPACING and next_attempt_ts equal to 24 hours after the
last attempt advanced by the window routine; inside the window that
routine rounds up to the next whole minute rather than keeping the
instant unchanged, and outside it moves to the window start. -/
theorem insufficient_spacing_amended :
    (∀ (attempts : List AttemptRecord) (region : String) (now sysNow : Nat)
        (la : AttemptRecord),
      (getAttemptsThisWeek attempts sysNow).length < 3 →
      getLastAttempt attempts = some la →
      now < la.timestamp + 24 * msHour →
      (la.outcome ≠ Outcome.busy ∨ la.timestamp + 15 * msMinute ≤ now) →
      scheduleAttempt attempts region (some now) sysNow =
        { eligible := false
          block_reason := some "INSUFFICIENT_SPACING"
          next_attempt_ts :=
            some (getNextTimeInWindow (la.timestamp + 24 * msHour) (getTimeWindow region))
          attempt_no := some (getNextAttemptNo attempts) }) ∧
    (∀ (t : Nat) (w : TimeWindow),
      (if w.endh < w.start then w.start ≤ getUTCHours t ∨ getUTCHours t < w.endh
       else w.start ≤ getUTCHours t ∧ getUTCHours t < w.endh) →
      getNextTimeInWindow t w = minuteCeilMs t) := by
  constructor
  · intro attempts region now sysNow la hweek hlast hsp hnb
    have hbr := getBusyRetryTime_none la now hnb
    have h24 : has24HourSpacing la now = false := by
      unfold has24HourSpacing
      simp; omega
    unfold scheduleAttempt
    rw [if_neg (by omega)]
    simp only [Option.getD_some, hlast, hbr]
    simp [h24, hbr]
  · intro t w hw
    unfold getNextTimeInWindow
    by_cases hwrap : w.endh < w.start
    · rw [if_pos hwrap] at hw ⊢
      rw [if_pos (by simpa using hw)]
    · rw [if_neg hwrap] at hw ⊢
      rw [if_neg (by omega), if_pos (by omega)]

/-- C7 witness: the amended statement applied to the concrete
counterexample data. -/
theorem insufficient_spacing_amended_witness :
    scheduleAttempt [spacedAttempt] "US_EAST" (some 1710496800000) 1710496800000 =
      { eligible := false, block_reason := some "INSUFFICIENT_SPACING",
        next_attempt_ts :=
          some (getNextTimeInWindow (spacedAttempt.timestamp + 24 * msHour) (getTimeWindow "US_EAST")),
        attempt_no := some (getNextAttemptNo [spacedAttempt]) } ∧
    getNextTimeInWindow 1710513030000 (getTimeWindow "US_EAST") = minuteCeilMs 1710513030000 :=
  ⟨insufficient_spacing_amended.1 [spacedAttempt] "US_EAST" 1710496800000 1710496800000
      spacedAttempt (by decide) (by decide) (by decide) (Or.inl (by decide)),
   insufficient_spacing_amended.2 1710513030000 (getTimeWindow "US_EAST") (by decide)⟩

/-- Folding the latest-attempt selector over records with strictly
increasing timestamps, starting from an accumulator that precedes them
all, picks the final record. -/
theorem getLastAttempt_foldl_increasing (l : List AttemptRecord) :
    ∀ (b : AttemptRecord), (∀ a ∈ l, b.timestamp < a.timestamp) →
      l.Pairwise (fun x y => x.timestamp < y.timestamp) →
      l.foldl
        (fun best a =>
          match best with
          | none => some a
          | some c => if c.timestamp < a.timestamp then some a else some c)
        (some b) = some ((b :: l).getLast (by simp)) := by
  induction l with
  | nil => intro b _ _; simp [List.getLast]
  | cons a t ih =>
    intro b hb hp
    have hba : b.timestamp < a.timestamp := hb a (List.mem_cons_self a t)
    have hat : ∀ x ∈ t, a.timestamp < x.timestamp := (List.pairwise_cons.mp hp).1
    have hpt : t.Pairwise (fun x y => x.timestamp < y.timestamp) :=
      (List.pairwise_cons.mp hp).2
    simp only [List.foldl_cons, if_pos hba]
    rw [ih a hat hpt]
    rfl

/-- On a history with strictly increasing timestamps the latest attempt
is the last record. -/
theorem getLastAttempt_increasing (l : List AttemptRecord) (hl : l ≠ [])
    (hp : l.Pairwise (fun x y => x.timestamp < y.timestamp)) :
    getLastAttempt l = some (l.getLast hl) := by
  cases l with
  | nil => exact absurd rfl hl
  | cons a t =>
    unfold getLastAttempt
    simp only [List.foldl_cons]
    exact getLastAttempt_foldl_increasing t a (List.pairwise_cons.mp hp).1
      (List.pairwise_cons.mp hp).2

/-- C10: for a lead whose recorded attempts are numbered sequentially
from 1 (in recording order, with increasing timestamps), voicemail is
allowed exactly when the history holds one attempt: the next attempt
number is then exactly 2. -/
theorem voicemail_second_attempt_only :
    ∀ (attempts : List AttemptRecord),
      (∀ k (hk : k < attempts.length), (attempts.get ⟨k, hk⟩).attempt_no = k + 1) →
      attempts.Pairwise (fun a b => a.timestamp < b.timestamp) →
      (isVoicemailAllowedForLead attempts = true ↔ attempts.length = 1) := by
  intro attempts hseq hp
  cases hat : attempts with
  | nil => subst hat; simp [isVoicemailAllowedForLead, getNextAttemptNo, isVoicemailAllowed]
  | cons a t =>
    subst hat
    have hne : (a :: t) ≠ ([] : List AttemptRecord) := by simp
    have hlast := getLastAttempt_increasing (a :: t) hne hp
    have hlen : ((a :: t).getLast hne).attempt_no = (a :: t).length := by
      have hget := List.getLast_eq_getElem (a :: t) hne
      rw [hget]
      have := hseq ((a :: t).length - 1) (by simp)
      rw [List.get_eq_getElem] at this
      rw [this]
      simp
    unfold isVoicemailAllowedForLead getNextAttemptNo isVoicemailAllowed
    rw [if_neg (by simp)]
    simp only [hlast, decide_eq_true_eq]
    rw [hlen]
    omega

/-- C10 witness: after exactly one recorded attempt the voicemail gate
opens. -/
theorem voicemail_second_attempt_only_witness :
    (isVoicemailAllowedForLead
        [{ attempt_no := 1, timestamp := 1710165600000, outcome := Outcome.no_answer }] = true ↔
      ([{ attempt_no := 1, timestamp := 1710165600000, outcome := Outcome.no_answer }] :
        List AttemptRecord).length = 1) :=
  voicemail_second_attempt_only
    [{ attempt_no := 1, timestamp := 1710165600000, outcome := Outcome.no_answer }]
    (by decide) (by decide)

set_option maxHeartbeats 1000000 in
/-- Any uid returned by createEvent for an event submitted without one
is the deterministic hash-derived uid of the meeting id and the start
timestamp. -/
theorem createEvent_uid_formula (store : CalendarStore) (now : Nat) (e : CalendarEvent)
    (u : String) (hn : e.iCal_uid = none)
    (hu : (createEvent store now e).1.iCal_uid = some u) :
    u = generateICalUid e.meeting_id e.start_utc := by
  unfold createEvent at hu
  rw [hn] at hu
  simp only [show (!jsTruthyStr (none : Option String)) = true from rfl,
    eq_self_iff_true, if_true] at hu
  split at hu
  · exact absurd hu (by simp)
  · split at hu
    · exact absurd hu (by simp)
    · split at hu
      · exact absurd hu (by simp)
      · simp only [Option.some.injEq] at hu
        exact hu.symm

/-- C3: two createEvent calls on the empty store with the same
(meeting_id, start_utc) pair and no supplied uid return the same
iCal uid whenever they return one. -/
theorem createEvent_uid_idempotent :
    ∀ (e1 e2 : CalendarEvent) (now1 now2 : Nat) (u1 u2 : String),
      e1.meeting_id = e2.meeting_id → e1.start_utc = e2.start_utc →
      e1.iCal_uid = none → e2.iCal_uid = none →
      (createEvent emptyCalendarStore now1 e1).1.iCal_uid = some u1 →
      (createEvent emptyCalendarStore now2 e2).1.iCal_uid = some u2 →
      u1 = u2 := by
  intro e1 e2 n1 n2 u1 u2 hm hs h1 h2 hu1 hu2
  rw [createEvent_uid_formula _ _ _ _ h1 hu1, createEvent_uid_formula _ _ _ _ h2 hu2,
    hm, hs]

/-- A schema-valid event with no supplied uid, mirroring the repository
calendar test but with a 15-character manager id. -/
def uidEventA : CalendarEvent :=
  { meeting_id := "550e8400-e29b-41d4-a716-446655440000"
    manager_id := "005123456789XYZ"
    title := "Discovery Meeting"
    start_utc := "2024-03-15T14:00:00.000Z"
    end_utc := "2024-03-15T14:30:00.000Z"
    timezone := "America/New_York"
    source_system := "ai-outbound" }

/-- The same booking pair with a different title. -/
def uidEventB : CalendarEvent :=
  { uidEventA with title := "Second Discovery Meeting" }

/-- C3 witness: both calls on the empty store succeed and return the
hash-derived uid, and the idempotence theorem applies to them. -/
theorem createEvent_uid_idempotent_witness :
    ((createEvent emptyCalendarStore 0 uidEventA).1.iCal_uid
        = some "dd8f1577-11aa-3fca-138a-0a7e0d8d7029") ∧
    ((createEvent emptyCalendarStore 0 uidEventB).1.iCal_uid
        = some "dd8f1577-11aa-3fca-138a-0a7e0d8d7029") ∧
    ("dd8f1577-11aa-3fca-138a-0a7e0d8d7029" : String)
        = "dd8f1577-11aa-3fca-138a-0a7e0d8d7029" :=
  ⟨by decide, by decide,
    createEvent_uid_idempotent uidEventA uidEventB 0 0 _ _ rfl rfl rfl rfl
      (by decide) (by decide)⟩

/-- The overlap test against a store holding exactly one event of the
manager, written as the buffered-intersection formula of the
specification. -/
theorem hasOverlap_single_event (ev : CalendarEvent) (now : Nat) (mgr cs ce : String)
    (ex : Option String) (hmgr : ev.manager_id = mgr) :
    (hasOverlap { events := [ev], holds := [] } now mgr cs ce ex = true ↔
      (((parseRFC3339Ms cs : Int) - BUFFER_MS < (parseRFC3339Ms ev.end_utc : Int) ∧
        (parseRFC3339Ms ce : Int) + BUFFER_MS > (parseRFC3339Ms ev.start_utc : Int)) ∨
       ((parseRFC3339Ms ev.start_utc : Int) < (parseRFC3339Ms ce : Int) + BUFFER_MS ∧
        (parseRFC3339Ms ev.end_utc : Int) > (parseRFC3339Ms cs : Int) - BUFFER_MS))) := by
  unfold hasOverlap cleanupExpiredHolds
  simp [hmgr]

/-- C8: against a single reservation of a manager, a candidate shifted
9 minutes earlier and one shifted 9 minutes later are both rejected as
overlapping, a candidate starting at least 11 minutes after the end is
accepted, and the conflict test is exactly the symmetric buffered
formula of the specification. -/
theorem buffer_symmetry
    (mgr freshId : String) (ev : CalendarEvent) (now s e ttl : Nat)
    (hmgr : ev.manager_id = mgr)
    (hs : parseRFC3339Ms ev.start_utc = s)
    (he : parseRFC3339Ms ev.end_utc = e)
    (hse : s ≤ e)
    (c1s c1e c2s c2e c3s c3e : String)
    (h1s : (parseRFC3339Ms c1s : Int) = (s : Int) - 9 * 60000)
    (h1e : (parseRFC3339Ms c1e : Int) = (e : Int) - 9 * 60000)
    (h2s : parseRFC3339Ms c2s = s + 9 * 60000)
    (h2e : parseRFC3339Ms c2e = e + 9 * 60000)
    (h3s : e + 11 * 60000 ≤ parseRFC3339Ms c3s)
    (httl : 300 ≤ ttl ∧ ttl ≤ 1800)
    (hold3 : CalendarHoldSchemaOk
      { tentative_id := freshId, manager_id := mgr, start_utc := c3s, end_utc := c3e,
        created_by := "system", ttl_seconds := ttl } = true) :
    ((placeHold { events := [ev], holds := [] } now freshId mgr c1s c1e ttl).1.success = false ∧
      (placeHold { events := [ev], holds := [] } now freshId mgr c1s c1e ttl).1.error =
        some "Time slot overlaps with existing event or hold (including 10-minute buffers)") ∧
    ((placeHold { events := [ev], holds := [] } now freshId mgr c2s c2e ttl).1.success = false ∧
      (placeHold { events := [ev], holds := [] } now freshId mgr c2s c2e ttl).1.error =
        some "Time slot overlaps with existing event or hold (including 10-minute buffers)") ∧
    ((placeHold { events := [ev], holds := [] } now freshId mgr c3s c3e ttl).1.success = true) ∧
    (∀ (cs ce : String),
      hasOverlap { events := [ev], holds := [] } now mgr cs ce none = true ↔
        (((parseRFC3339Ms cs : Int) - BUFFER_MS < (e : Int) ∧
          (parseRFC3339Ms ce : Int) + BUFFER_MS > (s : Int)) ∨
         ((s : Int) < (parseRFC3339Ms ce : Int) + BUFFER_MS ∧
          (e : Int) > (parseRFC3339Ms cs : Int) - BUFFER_MS))) := by
  have hov1 : hasOverlap { events := [ev], holds := [] } now mgr c1s c1e none = true := by
    rw [hasOverlap_single_event ev now mgr c1s c1e none hmgr]
    rw [hs, he, h1s, h1e]
    unfold BUFFER_MS
    left
    constructor <;> omega
  have hov2 : hasOverlap { events := [ev], holds := [] } now mgr c2s c2e none = true := by
    rw [hasOverlap_single_event ev now mgr c2s c2e none hmgr]
    rw [hs, he, h2s, h2e]
    unfold BUFFER_MS
    left
    constructor
    · push_cast
      omega
    · push_cast
      omega
  have hov3 : hasOverlap { events := [ev], holds := [] } now mgr c3s c3e none = false := by
    rw [Bool.eq_false_iff]
    intro hcon
    rw [hasOverlap_single_event ev now mgr c3s c3e none hmgr] at hcon
    rw [hs, he] at hcon
    unfold BUFFER_MS at hcon
    rcases hcon with ⟨h1, _⟩ | ⟨_, h2⟩
    · have := h3s
      push_cast at h1
      omega
    · have := h3s
      push_cast at h2
      omega
  have httlb : (decide (ttl < 300) || decide (1800 < ttl)) = false := by
    simp only [Bool.or_eq_false_iff, decide_eq_false_iff_not]
    omega
  refine ⟨?_, ?_, ?_, ?_⟩
  · unfold placeHold
    rw [httlb]
    simp only [Bool.false_eq_true, if_false, cleanupExpiredHolds, List.filter_nil]
    rw [if_pos hov1]
    exact ⟨rfl, rfl⟩
  · unfold placeHold
    rw [httlb]
    simp only [Bool.false_eq_true, if_false, cleanupExpiredHolds, List.filter_nil]
    rw [if_pos hov2]
    exact ⟨rfl, rfl⟩
  · unfold placeHold
    rw [httlb]
    simp only [Bool.false_eq_true, if_false, cleanupExpiredHolds, List.filter_nil]
    rw [hov3, hold3]
    simp only [Bool.false_eq_true, if_false, Bool.not_true]
  · intro cs ce
    rw [hasOverlap_single_event ev now mgr cs ce none hmgr, hs, he]

/-- A fresh tentative id for the witness holds. -/
def bufFreshId : String := "6fa459ea-ee8a-3ca4-894e-db77e160355e"

/-- C8 witness: the three boundary candidates around a held
14:00-14:30 reservation behave as the claim states. -/
theorem buffer_symmetry_witness :
    ((placeHold { events := [uidEventA], holds := [] } 0 bufFreshId "005123456789XYZ"
        "2024-03-15T13:51:00.000Z" "2024-03-15T14:21:00.000Z" 1800).1.success = false ∧
      (placeHold { events := [uidEventA], holds := [] } 0 bufFreshId "005123456789XYZ"
        "2024-03-15T13:51:00.000Z" "2024-03-15T14:21:00.000Z" 1800).1.error =
        some "Time slot overlaps with existing event or hold (including 10-minute buffers)") ∧
    ((placeHold { events := [uidEventA], holds := [] } 0 bufFreshId "005123456789XYZ"
        "2024-03-15T14:09:00.000Z" "2024-03-15T14:39:00.000Z" 1800).1.success = false ∧
      (placeHold { events := [uidEventA], holds := [] } 0 bufFreshId "005123456789XYZ"
        "2024-03-15T14:09:00.000Z" "2024-03-15T14:39:00.000Z" 1800).1.error =
        some "Time slot overlaps with existing event or hold (including 10-minute buffers)") ∧
    ((placeHold { events := [uidEventA], holds := [] } 0 bufFreshId "005123456789XYZ"
        "2024-03-15T14:41:00.000Z" "2024-03-15T15:11:00.000Z" 1800).1.success = true) := by
  have h := buffer_symmetry "005123456789XYZ" bufFreshId uidEventA 0
    1710511200000 1710513000000 1800 rfl (by decide) (by decide) (by decide)
    "2024-03-15T13:51:00.000Z" "2024-03-15T14:21:00.000Z"
    "2024-03-15T14:09:00.000Z" "2024-03-15T14:39:00.000Z"
    "2024-03-15T14:41:00.000Z" "2024-03-15T15:11:00.000Z"
    (by decide) (by decide) (by decide) (by decide) (by decide)
    ⟨by decide, by decide⟩ (by decide)
  exact ⟨h.1, h.2.1, h.2.2.1⟩
